import Mathlib

/-!
Verification of the pxrun provisioning core against its specification.

The Python source is shallowly embedded: each service method becomes a Lean
function over explicit inputs (poll traces, command executors, environments,
cache states) that mirror the external effects the Python code performs.
-/

namespace Pxrun

/-! ## AsyncTaskTracker: `ProxmoxService.wait_for_task`

The Python loop polls `node.tasks(task_id).status.get()` once per iteration,
sleeping 1 second between polls, while `time.time() - start_time < timeout`.
We embed the sequence of observations the polls would return as a function
`poll : Nat → PollResult` (the i-th poll's outcome), and the wall-clock guard
as a fuel equal to `timeout` (each iteration costs one 1-second sleep). -/

/-- Outcome of one `status.get()` poll: the task is still running, the task
has stopped with an optional `exitstatus` field, or the request raised. -/
inductive PollResult where
  | running : PollResult
  | stopped (exitstatus : Option String) : PollResult
  | error (msg : String) : PollResult
deriving DecidableEq

/-- The polling loop of `wait_for_task`: `i` is the index of the next poll,
`fuel` the remaining whole seconds of budget. -/
def wait_for_task_aux (poll : Nat → PollResult) (timeout : Nat) :
    Nat → Nat → Bool × String
  | _, 0 => (false, "Task timeout after " ++ toString timeout ++ " seconds")
  | i, fuel + 1 =>
    match poll i with
    | .error e => (false, e)
    | .stopped es =>
      if es = some "OK" then (true, "Task completed successfully")
      else (false, "Task failed: " ++ es.getD "Unknown error")
    | .running => wait_for_task_aux poll timeout (i + 1) fuel

/-- Model of `ProxmoxService.wait_for_task`, over the trace of poll outcomes. -/
def wait_for_task (poll : Nat → PollResult) (timeout : Nat) : Bool × String :=
  wait_for_task_aux poll timeout 0 timeout

/-! ## `ProxmoxService.get_next_vmid`

`nextid` is the result of `client.cluster.nextid.get()` (`none` when the call
or the `int` conversion raises); `container_vmids` the vmids of
`list_containers()`, consulted only on the fallback path. -/

/-- Model of `ProxmoxService.get_next_vmid`. -/
def get_next_vmid (nextid : Option Int) (container_vmids : List Int)
    (min_vmid : Int) : Int :=
  match nextid with
  | some vmid => max vmid min_vmid
  | none =>
    match container_vmids.max? with
    | some max_vmid => max (max_vmid + 1) min_vmid
    | none => min_vmid

/-! ## `ProxmoxService.exec_container_command`

The method creates a paramiko SSH client, connects to the node, runs
`pct exec <vmid> -- <command>`, reads the exit code and both streams, calls
`ssh.close()`, and returns `(exit_code == 0, output-or-stderr)`.  Exceptions
raised during `connect` or during command execution are caught by the
`except` clause, which returns `(False, str(e))`; the `finally` clause only
restores the paramiko log level.  We embed one run as its externally visible
outcome and record whether a session was opened and whether it was closed. -/

/-- How one SSH run of `exec_container_command` unfolds: `connect` raises, or
`connect` succeeds and the command execution raises, or the command completes
with an exit code, stdout and stderr. -/
inductive SSHRun where
  | connectRaises (msg : String) : SSHRun
  | execRaises (msg : String) : SSHRun
  | completes (exit_code : Int) (stdout stderr : String) : SSHRun
deriving DecidableEq

/-- Observable outcome of `exec_container_command`: the returned pair, plus
whether an SSH session was successfully opened and whether `ssh.close()` ran. -/
structure ExecOutcome where
  result : Bool × String
  ssh_opened : Bool
  ssh_closed : Bool
deriving DecidableEq

/-- Model of `ProxmoxService.exec_container_command`, over one `SSHRun`.  `ssh.close()`
appears in the source only on the straight-line path after reading the
streams; the `except` path returns without closing. -/
def exec_container_command (run : SSHRun) : ExecOutcome :=
  match run with
  | .connectRaises msg =>
    { result := (false, msg), ssh_opened := false, ssh_closed := false }
  | .execRaises msg =>
    { result := (false, msg), ssh_opened := true, ssh_closed := false }
  | .completes exit_code stdout stderr =>
    if exit_code = 0 then
      { result := (true, stdout), ssh_opened := true, ssh_closed := true }
    else
      { result := (false, stderr), ssh_opened := true, ssh_closed := true }

end Pxrun

namespace Pxrun

/-! ## Python string primitives

The matching code uses `str.lower`, `in`, `str.split('.')[0]`, `endswith`
and negative slicing.  We embed them as structural recursions over the
character list of a `String`, so that every concrete evaluation reduces. -/

/-- ASCII lowering of one character, as Python `str.lower` acts on the
hostname alphabet. -/
def py_char_lower (c : Char) : Char :=
  if 'A' ≤ c ∧ c ≤ 'Z' then Char.ofNat (c.toNat + 32) else c

/-- Python `s.lower()`. -/
def py_lower (s : String) : String :=
  ⟨s.data.map py_char_lower⟩

/-- Python `c in s` for a single character. -/
def py_contains (s : String) (c : Char) : Bool :=
  s.data.contains c

/-- Helper for `py_split`: accumulates the current chunk (reversed). -/
def py_split_aux (sep : Char) : List Char → List Char → List String
  | [], acc => [⟨acc.reverse⟩]
  | c :: cs, acc =>
    if c = sep then ⟨acc.reverse⟩ :: py_split_aux sep cs []
    else py_split_aux sep cs (c :: acc)

/-- Python `s.split(sep)` for a one-character separator. -/
def py_split (s : String) (sep : Char) : List String :=
  py_split_aux sep s.data []

/-- Python `s.endswith(p)`. -/
def py_endswith (s p : String) : Bool :=
  List.isPrefixOf p.data.reverse s.data.reverse

/-- Python `s[:-n]` for `n ≥ 1` (drop the last `n` characters). -/
def py_dropright (s : String) (n : Nat) : String :=
  ⟨s.data.take (s.data.length - n)⟩

/-- Python `s[n:]` (drop the first `n` characters). -/
def py_drop (s : String) (n : Nat) : String :=
  ⟨s.data.drop n⟩

/-- Python `s.startswith(p)`. -/
def py_startswith (s p : String) : Bool :=
  List.isPrefixOf p.data s.data

/-- Python `sep.join(xs)`. -/
def py_join (sep : String) : List String → String
  | [] => ""
  | [x] => x
  | x :: rest => x ++ sep ++ py_join sep rest

/-! ## Tailscale data model and hostname matching -/

/-- The `TailscaleNode` dataclass (fields of `from_api_response`). -/
structure TailscaleNode where
  id : String
  name : String
  hostname : String
  addresses : List String
  os : String
  user : String
  created : String
  last_seen : String
  online : Bool
  key_expiry_disabled : Bool
deriving DecidableEq

/-- Python truthiness of the optional `vmid` argument: `None` and `0` are
falsy, every other int is truthy. -/
def vmidTruthy : Option Nat → Bool
  | none => false
  | some n => n != 0

/-- The per-node matching of `TailscaleAPIClient.get_node_by_hostname`: exact
case-insensitive match on `hostName` or `name`, then match after stripping a
trailing domain (split on the first dot) from either field. -/
def node_matches_hostname (node : TailscaleNode) (hostname_lower : String) : Bool :=
  let node_hostname_lower := py_lower node.hostname
  let node_name_lower := py_lower node.name
  if node_hostname_lower = hostname_lower ∨ node_name_lower = hostname_lower then
    true
  else if py_contains node_hostname_lower '.' ∧
      (py_split node_hostname_lower '.').headD "" = hostname_lower then
    true
  else if py_contains node_name_lower '.' ∧
      (py_split node_name_lower '.').headD "" = hostname_lower then
    true
  else
    false

/-- Model of `TailscaleAPIClient.get_node_by_hostname`, over the listing that
`list_nodes()` returned: first node (in listing order) whose per-node checks
succeed, else `none`. -/
def get_node_by_hostname (nodes : List TailscaleNode) (hostname : String) :
    Option TailscaleNode :=
  let hostname_lower := py_lower hostname
  nodes.find? (fun node => node_matches_hostname node hostname_lower)

/-- The suffix loop of `find_container_node`: for each non-`None` suffix, look
up `hostname ++ suffix`; first hit wins. -/
def try_suffixes (nodes : List TailscaleNode) (container_hostname : String) :
    List (Option String) → Option TailscaleNode
  | [] => none
  | none :: rest => try_suffixes nodes container_hostname rest
  | some suffix :: rest =>
    match get_node_by_hostname nodes (container_hostname ++ suffix) with
    | some node => some node
    | none => try_suffixes nodes container_hostname rest

/-- The suffix-stripping loop of `find_container_node`: for each pattern the
hostname ends with, look up the hostname with that pattern removed. -/
def try_strip_patterns (nodes : List TailscaleNode) (container_hostname : String) :
    List String → Option TailscaleNode
  | [] => none
  | pattern :: rest =>
    if py_endswith container_hostname pattern then
      match get_node_by_hostname nodes
          (py_dropright container_hostname pattern.length) with
      | some node => some node
      | none => try_strip_patterns nodes container_hostname rest
    else
      try_strip_patterns nodes container_hostname rest

/-- Model of `TailscaleNodeManager.find_container_node`, over the registry listing:
exact/FQDN lookup, then the suffix attempts `-ct`, `-<vmid>`, `-ct<vmid>`
(the latter two only when `vmid` is truthy), then — only when `vmid` is
truthy — stripping `-<vmid>`, `-ct<vmid>`, `-ct`, `ct<vmid>` from the
hostname itself. -/
def find_container_node (nodes : List TailscaleNode) (container_hostname : String)
    (vmid : Option Nat) : Option TailscaleNode :=
  match get_node_by_hostname nodes container_hostname with
  | some node => some node
  | none =>
    let suffixes : List (Option String) :=
      [some "-ct",
       if vmidTruthy vmid then some ("-" ++ toString (vmid.getD 0)) else none,
       if vmidTruthy vmid then some ("-ct" ++ toString (vmid.getD 0)) else none]
    match try_suffixes nodes container_hostname suffixes with
    | some node => some node
    | none =>
      if vmidTruthy vmid then
        let v := vmid.getD 0
        try_strip_patterns nodes container_hostname
          ["-" ++ toString v, "-ct" ++ toString v, "-ct", "ct" ++ toString v]
      else
        none

/-! ## `TailscaleAPIClient` cache state, `list_nodes`, `delete_node`

`list_nodes` keeps a per-client cache (`_nodes_cache`, `_cache_timestamp`)
with `_cache_ttl = 60` seconds.  We embed the remote registry as the listing
a fetch would return, the clock as an explicit `now`, and report whether an
HTTP fetch occurred. -/

/-- The mutable fields `_nodes_cache` / `_cache_timestamp` of
`TailscaleAPIClient`. -/
structure ClientState where
  nodes_cache : Option (List TailscaleNode)
  cache_timestamp : Option Int
deriving DecidableEq

/-- The `_cache_ttl` constant. -/
def cache_ttl : Int := 60

/-- Model of `TailscaleAPIClient.list_nodes`: returns the listing, the new cache
state, and whether the registry was fetched. -/
def list_nodes (registry : List TailscaleNode) (now : Int) (st : ClientState)
    (use_cache : Bool) : List TailscaleNode × ClientState × Bool :=
  if use_cache ∧ st.nodes_cache ≠ none ∧ st.cache_timestamp ≠ none ∧
      now - (st.cache_timestamp.getD 0) < cache_ttl then
    (st.nodes_cache.getD [], st, false)
  else
    (registry, { nodes_cache := some registry, cache_timestamp := some now }, true)

/-- Model of `TailscaleAPIClient.delete_node`: `delete_ok` is whether the DELETE
request succeeded (`raise_for_status` did not raise); only then is the cache
cleared. -/
def delete_node (delete_ok : Bool) (st : ClientState) : Bool × ClientState :=
  if delete_ok then
    (true, { nodes_cache := none, cache_timestamp := none })
  else
    (false, st)

/-! ## Stateful `find_container_node` / `remove_container_node`

`find_container_node` performs up to eight `get_node_by_hostname` lookups,
each of which calls `list_nodes()` with the cache enabled; the cache state
threads through them. -/

/-- Model of `TailscaleAPIClient.get_node_by_hostname` with its `list_nodes()` call
made explicit. -/
def get_node_by_hostname_st (registry : List TailscaleNode) (now : Int)
    (st : ClientState) (hostname : String) : Option TailscaleNode × ClientState :=
  let (nodes, st2, _) := list_nodes registry now st true
  (get_node_by_hostname nodes hostname, st2)

/-- Stateful version of the suffix loop of `find_container_node`. -/
def try_suffixes_st (registry : List TailscaleNode) (now : Int)
    (container_hostname : String) :
    ClientState → List (Option String) → Option TailscaleNode × ClientState
  | st, [] => (none, st)
  | st, none :: rest => try_suffixes_st registry now container_hostname st rest
  | st, some suffix :: rest =>
    match get_node_by_hostname_st registry now st (container_hostname ++ suffix) with
    | (some node, st2) => (some node, st2)
    | (none, st2) => try_suffixes_st registry now container_hostname st2 rest

/-- Stateful version of the suffix-stripping loop of `find_container_node`. -/
def try_strip_patterns_st (registry : List TailscaleNode) (now : Int)
    (container_hostname : String) :
    ClientState → List String → Option TailscaleNode × ClientState
  | st, [] => (none, st)
  | st, pattern :: rest =>
    if py_endswith container_hostname pattern then
      match get_node_by_hostname_st registry now st
          (py_dropright container_hostname pattern.length) with
      | (some node, st2) => (some node, st2)
      | (none, st2) => try_strip_patterns_st registry now container_hostname st2 rest
    else
      try_strip_patterns_st registry now container_hostname st rest

/-- Model of `TailscaleNodeManager.find_container_node` with the cache state
threaded through every lookup. -/
def find_container_node_st (registry : List TailscaleNode) (now : Int)
    (st : ClientState) (container_hostname : String) (vmid : Option Nat) :
    Option TailscaleNode × ClientState :=
  match get_node_by_hostname_st registry now st container_hostname with
  | (some node, st1) => (some node, st1)
  | (none, st1) =>
    let suffixes : List (Option String) :=
      [some "-ct",
       if vmidTruthy vmid then some ("-" ++ toString (vmid.getD 0)) else none,
       if vmidTruthy vmid then some ("-ct" ++ toString (vmid.getD 0)) else none]
    match try_suffixes_st registry now container_hostname st1 suffixes with
    | (some node, st2) => (some node, st2)
    | (none, st2) =>
      if vmidTruthy vmid then
        let v := vmid.getD 0
        try_strip_patterns_st registry now container_hostname st2
          ["-" ++ toString v, "-ct" ++ toString v, "-ct", "ct" ++ toString v]
      else
        (none, st2)

/-- Externally visible actions of one `remove_container_node` run. -/
structure RemoveTrace where
  confirm_asked : Bool
  delete_calls : List String
deriving DecidableEq

/-- Model of `TailscaleNodeManager.remove_container_node`: `confirm` is the answer
the interactive prompt would return, `delete_ok` whether the registry DELETE
would succeed. -/
def remove_container_node (registry : List TailscaleNode) (now : Int)
    (st : ClientState) (confirm : Bool) (delete_ok : Bool)
    (container_hostname : String) (vmid : Option Nat) (force : Bool) :
    Bool × ClientState × RemoveTrace :=
  match find_container_node_st registry now st container_hostname vmid with
  | (none, st1) => (true, st1, { confirm_asked := false, delete_calls := [] })
  | (some node, st1) =>
    if ¬ force ∧ ¬ confirm then
      (false, st1, { confirm_asked := true, delete_calls := [] })
    else
      let (success, st2) := delete_node delete_ok st1
      (success, st2, { confirm_asked := ¬ force, delete_calls := [node.id] })

/-! ## `ProxmoxService.provision_container_via_exec`

The method issues shell commands through `exec_container_command`; we embed
that call as an executor `execCmd : String → Bool × String` and the process
environment as `env : String → Option String`, and record the commands
actually issued, the warning/error messages logged, and the returned bool. -/

/-- The `tailscale` sub-object of the provisioning config, as accessed by
`provisioning_config.tailscale.auth_key`. -/
structure TailscaleProvisionConfig where
  auth_key : Option String
deriving DecidableEq

/-- The fields of `ProvisioningConfig` that `provision_container_via_exec`
reads: `packages`, `docker`, `tailscale`. -/
structure ProvisioningConfig where
  packages : List String
  docker : Bool
  tailscale : Option TailscaleProvisionConfig
deriving DecidableEq

/-- Externally visible outcome of one provisioning run: commands issued in
order, messages logged for failures, and the returned bool. -/
structure ProvisionTrace where
  executed : List String
  logs : List String
  result : Bool
deriving DecidableEq

/-- The fixed Docker installation sub-steps (description, command). -/
def docker_commands : List (String × String) :=
  [("Install prerequisites",
    "bash -c 'DEBIAN_FRONTEND=noninteractive apt-get install -y ca-certificates curl'"),
   ("Create keyrings directory", "install -m 0755 -d /etc/apt/keyrings"),
   ("Download Docker GPG key",
    "curl -fsSL https://download.docker.com/linux/debian/gpg -o /etc/apt/keyrings/docker.asc"),
   ("Set GPG key permissions", "chmod a+r /etc/apt/keyrings/docker.asc"),
   ("Add Docker repository",
    "bash -c '. /etc/os-release && echo \"deb [arch=$(dpkg --print-architecture) signed-by=/etc/apt/keyrings/docker.asc] https://download.docker.com/linux/debian $VERSION_CODENAME stable\" | tee /etc/apt/sources.list.d/docker.list > /dev/null'"),
   ("Update package lists", "apt-get update"),
   ("Install Docker",
    "bash -c 'DEBIAN_FRONTEND=noninteractive apt-get install -y docker-ce docker-ce-cli containerd.io docker-buildx-plugin docker-compose-plugin'")]

/-- The two Tailscale sub-steps, for a resolved auth key. -/
def tailscale_commands (auth_key : String) : List (String × String) :=
  [("Install Tailscale", "curl -fsSL https://tailscale.com/install.sh | sh"),
   ("Connect to Tailscale", "tailscale up --authkey=" ++ auth_key)]

/-- The shared fatal sub-step loop (`for description, cmd in commands`):
first failure stops the loop, logs `Failed to <description.lower()>: ` and
the output, and fails the run. -/
def run_fatal_steps (execCmd : String → Bool × String) :
    List (String × String) → List String × List String × Bool
  | [] => ([], [], true)
  | (description, cmd) :: rest =>
    let (success, output) := execCmd cmd
    if success then
      let (ex, lg, ok) := run_fatal_steps execCmd rest
      (cmd :: ex, lg, ok)
    else
      ([cmd], ["Failed to " ++ py_lower description ++ ": " ++ output], false)

/-- Model of `ProxmoxService.provision_container_via_exec`. -/
def provision_container_via_exec (execCmd : String → Bool × String)
    (env : String → Option String) (cfg : ProvisioningConfig) : ProvisionTrace :=
  let (s1, o1) := execCmd "apt-get update"
  let ex1 : List String := ["apt-get update"]
  let lg1 : List String :=
    if s1 then [] else ["Failed to update package lists: " ++ o1]
  let (ex2, lg2, ok2) :=
    if cfg.packages = [] then (([] : List String), ([] : List String), true)
    else
      let packages_str := py_join " " cfg.packages
      let cmd := "bash -c 'DEBIAN_FRONTEND=noninteractive apt-get install -y " ++
        packages_str ++ "'"
      let (success, output) := execCmd cmd
      if success then ([cmd], ([] : List String), true)
      else ([cmd], ["Failed to install packages: " ++ output], false)
  if ok2 = false then
    { executed := ex1 ++ ex2, logs := lg1 ++ lg2, result := false }
  else
    let (ex3, lg3, ok3) :=
      if cfg.docker then run_fatal_steps execCmd docker_commands
      else (([] : List String), ([] : List String), true)
    if ok3 = false then
      { executed := ex1 ++ ex2 ++ ex3, logs := lg1 ++ lg2 ++ lg3, result := false }
    else
      let conclude := fun (ex4 lg4 : List String) (ok4 : Bool) =>
        ({ executed := ex1 ++ ex2 ++ ex3 ++ ex4,
           logs := lg1 ++ lg2 ++ lg3 ++ lg4, result := ok4 } : ProvisionTrace)
      match cfg.tailscale with
      | none => conclude [] [] true
      | some tc =>
        match tc.auth_key with
        | none => conclude [] [] true
        | some key =>
          if key = "" then conclude [] [] true
          else if py_startswith key "$\x7b" ∧ py_endswith key "\x7d" then
            let env_var := py_dropright (py_drop key 2) 1
            let resolved := (env env_var).getD ""
            if resolved = "" then
              conclude [] ["Environment variable " ++ env_var ++ " not found"] false
            else
              let (ex4, lg4, ok4) := run_fatal_steps execCmd (tailscale_commands resolved)
              conclude ex4 lg4 ok4
          else
            let (ex4, lg4, ok4) := run_fatal_steps execCmd (tailscale_commands key)
            conclude ex4 lg4 ok4

end Pxrun

namespace Pxrun

/-- Concrete registry entry named `web1-ct101`, used as a test fixture. -/
def webNode : TailscaleNode :=
  { id := "n1", name := "web1-ct101", hostname := "web1-ct101", addresses := [],
    os := "linux", user := "u", created := "", last_seen := "", online := true,
    key_expiry_disabled := false }

/-- Concrete executor failing exactly on the keyrings-directory sub-step. -/
def execFailKeyrings : String → Bool × String :=
  fun c => if c = "install -m 0755 -d /etc/apt/keyrings" then (false, "disk full")
    else (true, "")

/-- Concrete provisioning config with one package, Docker, and a Tailscale key. -/
def cfgC2 : ProvisioningConfig :=
  { packages := ["git"], docker := true,
    tailscale := some { auth_key := some "tskey-abc" } }

end Pxrun

namespace Pxrun

lemma wait_aux_stopped (poll : Nat → PollResult) (timeout : Nat)
    (es : Option String) :
    ∀ k i fuel, k < fuel → (∀ j, j < k → poll (i + j) = .running) →
      poll (i + k) = .stopped es →
      wait_for_task_aux poll timeout i fuel =
        if es = some "OK" then (true, "Task completed successfully")
        else (false, "Task failed: " ++ es.getD "Unknown error") := by
  intro k
  induction k with
  | zero =>
    intro i fuel hk hrun hstop
    cases fuel with
    | zero => omega
    | succ fuel =>
      simp only [Nat.add_zero] at hstop
      simp [wait_for_task_aux, hstop]
  | succ k ih =>
    intro i fuel hk hrun hstop
    cases fuel with
    | zero => omega
    | succ fuel =>
      have h0 : poll i = .running := by
        have h := hrun 0 (Nat.succ_pos k)
        simpa using h
      have hstep : wait_for_task_aux poll timeout i (fuel + 1) =
          wait_for_task_aux poll timeout (i + 1) fuel := by
        simp [wait_for_task_aux, h0]
      rw [hstep]
      refine ih (i + 1) fuel (Nat.lt_of_succ_lt_succ hk) ?_ ?_
      · intro j hj
        have e : i + 1 + j = i + (j + 1) := by omega
        rw [e]
        exact hrun (j + 1) (Nat.succ_lt_succ hj)
      · have e : i + 1 + k = i + (k + 1) := by omega
        rw [e]
        exact hstop

lemma wait_aux_true_iff (poll : Nat → PollResult) (timeout : Nat) :
    ∀ fuel i, wait_for_task_aux poll timeout i fuel =
        (true, "Task completed successfully") ↔
      ∃ k, k < fuel ∧ poll (i + k) = .stopped (some "OK") ∧
        ∀ j, j < k → poll (i + j) = .running := by
  intro fuel
  induction fuel with
  | zero =>
    intro i
    simp [wait_for_task_aux]
  | succ fuel ih =>
    intro i
    constructor
    · intro h
      rw [wait_for_task_aux] at h
      cases hp : poll i with
      | error e => rw [hp] at h; simp at h
      | stopped es =>
        rw [hp] at h
        by_cases hes : es = some "OK"
        · exact ⟨0, Nat.succ_pos fuel, by simpa [hes] using hp, by omega⟩
        · simp [hes] at h
      | running =>
        rw [hp] at h
        obtain ⟨k, hk, hstop, hrun⟩ := (ih (i + 1)).mp h
        refine ⟨k + 1, Nat.succ_lt_succ hk, ?_, ?_⟩
        · have e : i + (k + 1) = i + 1 + k := by omega
          rw [e]; exact hstop
        · intro j hj
          cases j with
          | zero => simpa using hp
          | succ j =>
            have e : i + (j + 1) = i + 1 + j := by omega
            rw [e]
            exact hrun j (Nat.lt_of_succ_lt_succ hj)
    · rintro ⟨k, hk, hstop, hrun⟩
      have h := wait_aux_stopped poll timeout (some "OK") k i (fuel + 1) hk hrun hstop
      simpa using h

lemma wait_aux_all_running (poll : Nat → PollResult) (timeout : Nat) :
    ∀ fuel i, (∀ j, poll j = .running) →
      wait_for_task_aux poll timeout i fuel =
        (false, "Task timeout after " ++ toString timeout ++ " seconds") := by
  intro fuel
  induction fuel with
  | zero => intro i _; rfl
  | succ fuel ih =>
    intro i hrun
    rw [wait_for_task_aux, hrun i]
    exact ih (i + 1) hrun

lemma wait_aux_congr (poll poll2 : Nat → PollResult) (timeout : Nat) :
    ∀ fuel i, (∀ k, k < fuel → poll (i + k) = poll2 (i + k)) →
      wait_for_task_aux poll timeout i fuel =
        wait_for_task_aux poll2 timeout i fuel := by
  intro fuel
  induction fuel with
  | zero => intro i _; rfl
  | succ fuel ih =>
    intro i hagree
    have h0 : poll i = poll2 i := by
      have h := hagree 0 (Nat.succ_pos fuel)
      simpa using h
    rw [wait_for_task_aux, wait_for_task_aux, ← h0]
    cases hp : poll i with
    | error e => rfl
    | stopped es => rfl
    | running =>
      exact ih (i + 1) (fun k hk => by
        have e : i + 1 + k = i + (k + 1) := by omega
        rw [e]
        exact hagree (k + 1) (Nat.succ_lt_succ hk))

/-- C1: `wait_for_task` returns `(true, "Task completed successfully")` iff
some poll within the budget observes status `stopped` with exitstatus `OK`
(all earlier polls observing `running`); and if the first non-running poll
observes `stopped` with any other exitstatus `es`, the call returns
`(false, "Task failed: <es>")` — in particular exitstatus `TASK ERROR`
yields `(false, "Task failed: TASK ERROR")` (see the witness). -/
theorem wait_for_task_success_iff (poll : Nat → PollResult) (timeout : Nat) :
    (wait_for_task poll timeout = (true, "Task completed successfully") ↔
      ∃ i, i < timeout ∧ poll i = .stopped (some "OK") ∧
        ∀ j, j < i → poll j = .running) ∧
    (∀ i es, i < timeout → (∀ j, j < i → poll j = .running) →
      poll i = .stopped es → es ≠ some "OK" →
      wait_for_task poll timeout =
        (false, "Task failed: " ++ es.getD "Unknown error")) := by
  constructor
  · have h := wait_aux_true_iff poll timeout timeout 0
    simpa [wait_for_task] using h
  · intro i es hi hrun hstop hne
    have h := wait_aux_stopped poll timeout es i 0 timeout hi
      (fun j hj => by simpa using hrun j hj) (by simpa using hstop)
    simpa [wait_for_task, hne] using h

/-- Witness for C1: with polls `running, stopped TASK ERROR, …` and
timeout 5, the call returns `(false, "Task failed: TASK ERROR")`. -/
theorem wait_for_task_success_iff_witness :
    wait_for_task
      (fun i => if i = 0 then .running else .stopped (some "TASK ERROR")) 5 =
      (false, "Task failed: TASK ERROR") := by
  have h := (wait_for_task_success_iff
      (fun i => if i = 0 then .running else .stopped (some "TASK ERROR")) 5).2
    1 (some "TASK ERROR") (by decide)
    (fun j hj => by
      have : j = 0 := by omega
      subst this
      rfl)
    (by decide) (by decide)
  exact h.trans (by decide)

/-- C6: `wait_for_task` terminates within its budget: it consults only the
polls at indices below `timeout` (so two traces agreeing there give the same
result), and a task whose polls all report `running` yields
`(false, "Task timeout after <timeout> seconds")` — with `timeout = 5`
literally `"Task timeout after 5 seconds"` (see the witness). -/
theorem wait_for_task_timeout_bound (poll : Nat → PollResult) (timeout : Nat) :
    ((∀ i, poll i = .running) →
      wait_for_task poll timeout =
        (false, "Task timeout after " ++ toString timeout ++ " seconds")) ∧
    (∀ poll2 : Nat → PollResult, (∀ i, i < timeout → poll i = poll2 i) →
      wait_for_task poll timeout = wait_for_task poll2 timeout) := by
  constructor
  · intro hrun
    exact wait_aux_all_running poll timeout timeout 0 hrun
  · intro poll2 hagree
    exact wait_aux_congr poll poll2 timeout timeout 0
      (fun k hk => by simpa using hagree k (by simpa using hk))

/-- Witness for C6: an always-running task with timeout 5 returns
`(false, "Task timeout after 5 seconds")`. -/
theorem wait_for_task_timeout_bound_witness :
    wait_for_task (fun _ => .running) 5 = (false, "Task timeout after 5 seconds") := by
  have h := (wait_for_task_timeout_bound (fun _ => .running) 5).1 (fun _ => rfl)
  exact h.trans (by decide)

/-- C10: `get_next_vmid` never returns below `min_vmid`: the cluster
next-free id is clamped up to `min_vmid`; on failure with containers
present, the maximum existing vmid plus one is clamped up to `min_vmid`;
and on failure with no containers it returns `min_vmid` exactly. -/
theorem get_next_vmid_ge_min (nextid : Option Int) (vmids : List Int)
    (min_vmid : Int) :
    min_vmid ≤ get_next_vmid nextid vmids min_vmid ∧
    (∀ v, nextid = some v →
      get_next_vmid nextid vmids min_vmid = max v min_vmid) ∧
    (∀ mx, nextid = none → vmids.max? = some mx →
      get_next_vmid nextid vmids min_vmid = max (mx + 1) min_vmid) ∧
    (nextid = none → vmids = [] →
      get_next_vmid nextid vmids min_vmid = min_vmid) := by
  refine ⟨?_, ?_, ?_, ?_⟩
  · cases nextid with
    | some v => simp [get_next_vmid]
    | none =>
      cases hmx : vmids.max? with
      | none => simp [get_next_vmid, hmx]
      | some mx => simp [get_next_vmid, hmx]
  · intro v hv
    subst hv
    rfl
  · intro mx hn hmx
    subst hn
    simp [get_next_vmid, hmx]
  · intro hn hv
    subst hn
    subst hv
    rfl

/-- Witness for C10: a failed next-id call with containers `[101, 205, 103]`
and minimum 100 gives `max (205 + 1) 100 = 206 ≥ 100`. -/
theorem get_next_vmid_ge_min_witness :
    (100 : Int) ≤ get_next_vmid none [101, 205, 103] 100 ∧
    get_next_vmid none [101, 205, 103] 100 = max (205 + 1) 100 := by
  refine ⟨(get_next_vmid_ge_min none [101, 205, 103] 100).1, ?_⟩
  exact (get_next_vmid_ge_min none [101, 205, 103] 100).2.2.1 205 rfl (by decide)

/-- C3: against a registry whose only entry is named `web1-ct101`, the
direct and first two suffix lookups for `find("web1", vmid=101)` miss, the
`-ct101` suffix lookup hits, so `find` returns the entry; and
`find("unknown-host")` with no vmid returns `none`. -/
theorem find_container_node_suffix_match :
    get_node_by_hostname [webNode] "web1" = none ∧
    get_node_by_hostname [webNode] "web1-ct" = none ∧
    get_node_by_hostname [webNode] "web1-101" = none ∧
    get_node_by_hostname [webNode] "web1-ct101" = some webNode ∧
    find_container_node [webNode] "web1" (some 101) = some webNode ∧
    find_container_node [webNode] "unknown-host" none = none := by
  refine ⟨by decide, by decide, by decide, by decide, by decide, by decide⟩

/-- Counterexample for C5: with no vmid supplied, `find("web-ct")` against a
registry containing exactly the entry `web` returns `none` — the claimed
`-ct`-stripping retry never happens, because the stripping loop is guarded
by a truthy `vmid`. -/
theorem find_strip_no_vmid_counterexample :
    find_container_node
      [{ id := "n2", name := "web", hostname := "web", addresses := [],
         os := "linux", user := "u", created := "", last_seen := "",
         online := true, key_expiry_disabled := false }] "web-ct" none = none := by
  decide

/-- C5 (amended): the suffix-stripping retry runs only when a truthy `vmid`
is supplied.  With no vmid, `find` returns `none` once the direct lookup and
the `-ct` suffix lookup miss; with a truthy vmid, once the direct and the
three suffix lookups miss, `find` returns the result of stripping each of
`-<vmid>`, `-ct<vmid>`, `-ct`, `ct<vmid>` that the hostname ends with and
retrying the exact/domain-stripped steps — so `find("web-ct", vmid=7)`
matches the entry `web` via the `-ct` pattern. -/
theorem find_strip_requires_vmid :
    (∀ nodes ch, get_node_by_hostname nodes ch = none →
      try_suffixes nodes ch [some "-ct", none, none] = none →
      find_container_node nodes ch none = none) ∧
    (∀ nodes ch (v : Nat), v ≠ 0 →
      get_node_by_hostname nodes ch = none →
      try_suffixes nodes ch
        [some "-ct", some ("-" ++ toString v), some ("-ct" ++ toString v)] = none →
      find_container_node nodes ch (some v) =
        try_strip_patterns nodes ch
          ["-" ++ toString v, "-ct" ++ toString v, "-ct", "ct" ++ toString v]) ∧
    find_container_node
      [{ id := "n2", name := "web", hostname := "web", addresses := [],
         os := "linux", user := "u", created := "", last_seen := "",
         online := true, key_expiry_disabled := false }] "web-ct" (some 7) =
      some { id := "n2", name := "web", hostname := "web", addresses := [],
             os := "linux", user := "u", created := "", last_seen := "",
             online := true, key_expiry_disabled := false } := by
  refine ⟨?_, ?_, by decide⟩
  · intro nodes ch h1 h2
    simp [find_container_node, vmidTruthy, h1, h2]
  · intro nodes ch v hv h1 h2
    simp [find_container_node, vmidTruthy, hv, h1, h2]

/-- Witness for C5 (amended): at the concrete registry `[web]`, hostname
`web-ct`, vmid 7, the hypotheses hold and the strip loop finds the entry. -/
theorem find_strip_requires_vmid_witness :
    find_container_node
      [{ id := "n2", name := "web", hostname := "web", addresses := [],
         os := "linux", user := "u", created := "", last_seen := "",
         online := true, key_expiry_disabled := false }] "web-ct" (some 7) =
      try_strip_patterns
        [{ id := "n2", name := "web", hostname := "web", addresses := [],
           os := "linux", user := "u", created := "", last_seen := "",
           online := true, key_expiry_disabled := false }] "web-ct"
        ["-7", "-ct7", "-ct", "ct7"] := by
  have h := find_strip_requires_vmid.2.1
    [{ id := "n2", name := "web", hostname := "web", addresses := [],
       os := "linux", user := "u", created := "", last_seen := "",
       online := true, key_expiry_disabled := false }] "web-ct" 7
    (by decide) (by decide) (by decide)
  exact h.trans (by decide)

/-- Counterexample for C9: when the remote command raises after the SSH
connection was established, `exec_container_command` returns without
calling `ssh.close()`: the session is opened but never closed. -/
theorem exec_close_counterexample :
    (exec_container_command (.execRaises "Connection reset by peer")).ssh_opened
        = true ∧
    (exec_container_command (.execRaises "Connection reset by peer")).ssh_closed
        = false := by
  decide

/-- C9 (amended): `exec_container_command` closes its SSH session on the two
completed paths (zero exit code returning stdout, non-zero exit code
returning stderr), but on an exception during connection or command
execution it returns `(False, str(e))` without closing the session it may
have opened. -/
theorem exec_container_command_close (code : Int) (out err msg : String) :
    (exec_container_command (.completes code out err)).ssh_closed = true ∧
    (exec_container_command (.completes code out err)).result =
      (if code = 0 then (true, out) else (false, err)) ∧
    exec_container_command (.execRaises msg) =
      { result := (false, msg), ssh_opened := true, ssh_closed := false } ∧
    exec_container_command (.connectRaises msg) =
      { result := (false, msg), ssh_opened := false, ssh_closed := false } := by
  refine ⟨?_, ?_, rfl, rfl⟩ <;>
    by_cases h : code = 0 <;> simp [exec_container_command, h]

/-- C2: with `docker = true` and non-empty `packages`, if the package-index
refresh, the package install and the first Docker sub-step succeed but the
second Docker sub-step (`Create keyrings directory`) fails, the run returns
`false`; exactly the steps up to and including the failing sub-step were
issued (the package install among them), nothing after it — in particular
no Tailscale step — runs, and the failure log names the failing sub-step. -/
theorem provision_docker_substep_failure
    (execCmd : String → Bool × String) (env : String → Option String)
    (cfg : ProvisioningConfig) (out : String)
    (hdocker : cfg.docker = true)
    (hpkgs : cfg.packages ≠ [])
    (h1 : (execCmd "apt-get update").1 = true)
    (h2 : (execCmd ("bash -c 'DEBIAN_FRONTEND=noninteractive apt-get install -y " ++
      py_join " " cfg.packages ++ "'")).1 = true)
    (h3 : (execCmd
      "bash -c 'DEBIAN_FRONTEND=noninteractive apt-get install -y ca-certificates curl'").1
      = true)
    (h4 : execCmd "install -m 0755 -d /etc/apt/keyrings" = (false, out)) :
    provision_container_via_exec execCmd env cfg =
      { executed := ["apt-get update",
          "bash -c 'DEBIAN_FRONTEND=noninteractive apt-get install -y " ++
            py_join " " cfg.packages ++ "'",
          "bash -c 'DEBIAN_FRONTEND=noninteractive apt-get install -y ca-certificates curl'",
          "install -m 0755 -d /etc/apt/keyrings"],
        logs := ["Failed to create keyrings directory: " ++ out],
        result := false } := by
  have hlow : py_lower "Create keyrings directory" = "create keyrings directory" := by
    decide
  rcases hu : execCmd "apt-get update" with ⟨s1, o1⟩
  rw [hu] at h1
  dsimp at h1
  subst h1
  rcases hp : execCmd ("bash -c 'DEBIAN_FRONTEND=noninteractive apt-get install -y " ++
      py_join " " cfg.packages ++ "'") with ⟨s2, o2⟩
  rw [hp] at h2
  dsimp at h2
  subst h2
  rcases hc : execCmd
      "bash -c 'DEBIAN_FRONTEND=noninteractive apt-get install -y ca-certificates curl'"
    with ⟨s3, o3⟩
  rw [hc] at h3
  dsimp at h3
  subst h3
  simp [provision_container_via_exec, hu, hp, hpkgs, hdocker, docker_commands,
    run_fatal_steps, hc, h4, hlow]

/-- Witness for C2: a concrete executor failing exactly on
`install -m 0755 -d /etc/apt/keyrings` with a `docker = true` config whose
package list is `["git"]`. -/
theorem provision_docker_substep_failure_witness :
    provision_container_via_exec execFailKeyrings (fun _ => none) cfgC2 =
      { executed := ["apt-get update",
          "bash -c 'DEBIAN_FRONTEND=noninteractive apt-get install -y git'",
          "bash -c 'DEBIAN_FRONTEND=noninteractive apt-get install -y ca-certificates curl'",
          "install -m 0755 -d /etc/apt/keyrings"],
        logs := ["Failed to create keyrings directory: disk full"],
        result := false } := by
  have h := provision_docker_substep_failure execFailKeyrings (fun _ => none)
    cfgC2 "disk full" rfl (by decide) (by decide) (by decide) (by decide) (by decide)
  exact h.trans (by decide)

lemma list_nodes_fresh (registry : List TailscaleNode) (now : Int)
    (st : ClientState) (cached : List TailscaleNode) (t : Int)
    (hc : st.nodes_cache = some cached) (ht : st.cache_timestamp = some t)
    (hfresh : now - t < cache_ttl) :
    list_nodes registry now st true = (cached, st, false) := by
  simp [list_nodes, hc, ht, hfresh]

lemma list_nodes_fetch (registry : List TailscaleNode) (now : Int)
    (st : ClientState)
    (h : st.nodes_cache = none ∨ st.cache_timestamp = none ∨
      cache_ttl ≤ now - st.cache_timestamp.getD 0) :
    list_nodes registry now st true =
      (registry, { nodes_cache := some registry, cache_timestamp := some now },
        true) := by
  rcases h with h | h | h
  · simp [list_nodes, h]
  · simp [list_nodes, h]
  · rw [list_nodes, if_neg]
    rintro ⟨-, -, -, hlt⟩
    exact absurd hlt (not_lt.mpr h)

lemma list_nodes_stable (registry : List TailscaleNode) (now : Int)
    (st : ClientState) (nodes : List TailscaleNode) (st2 : ClientState) (f : Bool)
    (h : list_nodes registry now st true = (nodes, st2, f)) :
    list_nodes registry now st2 true = (nodes, st2, false) := by
  by_cases hp : st.nodes_cache ≠ none ∧ st.cache_timestamp ≠ none ∧
      now - st.cache_timestamp.getD 0 < cache_ttl
  · obtain ⟨hc, ht, hlt⟩ := hp
    obtain ⟨cached, hc⟩ := Option.ne_none_iff_exists'.mp hc
    obtain ⟨t, ht⟩ := Option.ne_none_iff_exists'.mp ht
    rw [ht] at hlt
    have hfr := list_nodes_fresh registry now st cached t hc ht (by simpa using hlt)
    rw [hfr] at h
    injection h with h1 hrest
    injection hrest with h2 h3
    subst h1
    subst h2
    exact hfr
  · have hd : st.nodes_cache = none ∨ st.cache_timestamp = none ∨
        cache_ttl ≤ now - st.cache_timestamp.getD 0 := by
      by_cases h1 : st.nodes_cache = none
      · exact Or.inl h1
      by_cases h2 : st.cache_timestamp = none
      · exact Or.inr (Or.inl h2)
      refine Or.inr (Or.inr ?_)
      by_contra hlt
      exact hp ⟨h1, h2, by omega⟩
    have hft := list_nodes_fetch registry now st hd
    rw [hft] at h
    injection h with h1 hrest
    injection hrest with h2 h3
    subst h1
    subst h2
    exact list_nodes_fresh registry now _ registry now rfl rfl
      (by simp [cache_ttl])

lemma get_node_by_hostname_st_eq (registry : List TailscaleNode) (now : Int)
    (st : ClientState) (nodes : List TailscaleNode) (st2 : ClientState)
    (f : Bool) (x : String)
    (h : list_nodes registry now st true = (nodes, st2, f)) :
    get_node_by_hostname_st registry now st x =
      (get_node_by_hostname nodes x, st2) := by
  simp [get_node_by_hostname_st, h]

lemma try_suffixes_st_eq (registry : List TailscaleNode) (now : Int)
    (ch : String) (nodes : List TailscaleNode) (st2 : ClientState)
    (hst : list_nodes registry now st2 true = (nodes, st2, false)) :
    ∀ l, try_suffixes_st registry now ch st2 l = (try_suffixes nodes ch l, st2) := by
  intro l
  induction l with
  | nil => rfl
  | cons o rest ih =>
    cases o with
    | none => simpa [try_suffixes_st, try_suffixes] using ih
    | some suffix =>
      rw [try_suffixes_st,
        get_node_by_hostname_st_eq registry now st2 nodes st2 false _ hst,
        try_suffixes]
      cases get_node_by_hostname nodes (ch ++ suffix) <;> simp [ih]

lemma try_strip_patterns_st_eq (registry : List TailscaleNode) (now : Int)
    (ch : String) (nodes : List TailscaleNode) (st2 : ClientState)
    (hst : list_nodes registry now st2 true = (nodes, st2, false)) :
    ∀ l, try_strip_patterns_st registry now ch st2 l =
      (try_strip_patterns nodes ch l, st2) := by
  intro l
  induction l with
  | nil => rfl
  | cons pattern rest ih =>
    rw [try_strip_patterns_st, try_strip_patterns]
    by_cases hends : py_endswith ch pattern = true
    · rw [if_pos hends, if_pos hends,
        get_node_by_hostname_st_eq registry now st2 nodes st2 false _ hst]
      cases get_node_by_hostname nodes (py_dropright ch pattern.length) <;> simp [ih]
    · rw [if_neg hends, if_neg hends]
      exact ih

lemma find_container_node_st_eq (registry : List TailscaleNode) (now : Int)
    (st : ClientState) (nodes : List TailscaleNode) (st2 : ClientState)
    (f : Bool) (ch : String) (vmid : Option Nat)
    (h : list_nodes registry now st true = (nodes, st2, f)) :
    find_container_node_st registry now st ch vmid =
      (find_container_node nodes ch vmid, st2) := by
  have hst := list_nodes_stable registry now st nodes st2 f h
  rw [find_container_node_st, find_container_node,
    get_node_by_hostname_st_eq registry now st nodes st2 f ch h]
  cases get_node_by_hostname nodes ch with
  | some node => rfl
  | none =>
    simp only
    rw [try_suffixes_st_eq registry now ch nodes st2 hst]
    cases try_suffixes nodes ch
        [some "-ct",
         if vmidTruthy vmid then some ("-" ++ toString (vmid.getD 0)) else none,
         if vmidTruthy vmid then some ("-ct" ++ toString (vmid.getD 0)) else none]
      with
    | some node => rfl
    | none =>
      by_cases hv : vmidTruthy vmid = true
      · simp only [hv, if_true]
        rw [try_strip_patterns_st_eq registry now ch nodes st2 hst]
      · simp only [Bool.not_eq_true] at hv
        simp [hv]

/-- C7: the cache lifecycle of the registry listing: with a cached value
younger than 60 seconds, `list_nodes` returns it without fetching and
leaves the state alone; with no cached value, no timestamp, or a stale
timestamp it fetches, returns the registry listing and repopulates value
and timestamp; and a successful `delete_node` clears the cache, after which
the next `list_nodes` call fetches again. -/
theorem list_nodes_cache_lifecycle (registry : List TailscaleNode) (now : Int)
    (st : ClientState) :
    (∀ cached t, st.nodes_cache = some cached → st.cache_timestamp = some t →
      now - t < cache_ttl →
      list_nodes registry now st true = (cached, st, false)) ∧
    ((st.nodes_cache = none ∨ st.cache_timestamp = none ∨
        (∀ t, st.cache_timestamp = some t → cache_ttl ≤ now - t)) →
      list_nodes registry now st true =
        (registry, { nodes_cache := some registry, cache_timestamp := some now },
          true)) ∧
    (delete_node true st =
        (true, { nodes_cache := none, cache_timestamp := none }) ∧
      ∀ now2, list_nodes registry now2
          { nodes_cache := none, cache_timestamp := none } true =
        (registry,
          { nodes_cache := some registry, cache_timestamp := some now2 },
          true)) := by
  refine ⟨?_, ?_, rfl, ?_⟩
  · intro cached t hc ht hfresh
    exact list_nodes_fresh registry now st cached t hc ht hfresh
  · intro h
    refine list_nodes_fetch registry now st ?_
    rcases h with h | h | h
    · exact Or.inl h
    · exact Or.inr (Or.inl h)
    · cases ht : st.cache_timestamp with
      | none => exact Or.inr (Or.inl rfl)
      | some t =>
        refine Or.inr (Or.inr ?_)
        simpa using h t ht
  · intro now2
    exact list_nodes_fetch registry now2 _ (Or.inl rfl)

/-- Witness for C7: a fresh cache (`age 20 < 60`) is served without a
fetch; a stale one (`age 90`) is refetched; deleting clears the cache and
the following call fetches. -/
theorem list_nodes_cache_lifecycle_witness :
    list_nodes [] 30 { nodes_cache := some [], cache_timestamp := some 10 } true =
      ([], { nodes_cache := some [], cache_timestamp := some 10 }, false) ∧
    list_nodes [] 100 { nodes_cache := some [], cache_timestamp := some 10 } true =
      ([], { nodes_cache := some [], cache_timestamp := some 100 }, true) ∧
    delete_node true { nodes_cache := some [], cache_timestamp := some 10 } =
      (true, { nodes_cache := none, cache_timestamp := none }) ∧
    list_nodes [] 120 { nodes_cache := none, cache_timestamp := none } true =
      ([], { nodes_cache := some [], cache_timestamp := some 120 }, true) := by
  refine ⟨?_, ?_, ?_, ?_⟩
  · exact (list_nodes_cache_lifecycle [] 30
      { nodes_cache := some [], cache_timestamp := some 10 }).1 [] 10 rfl rfl
      (by decide)
  · exact (list_nodes_cache_lifecycle [] 100
      { nodes_cache := some [], cache_timestamp := some 10 }).2.1
      (Or.inr (Or.inr (fun t ht => by
        injection ht with ht
        subst ht
        decide)))
  · exact (list_nodes_cache_lifecycle [] 100
      { nodes_cache := some [], cache_timestamp := some 10 }).2.2.1
  · exact (list_nodes_cache_lifecycle [] 100
      { nodes_cache := some [], cache_timestamp := some 10 }).2.2.2 120

/-- C4: when `find_container_node` matches nothing in the registry,
`remove_container_node` (without `force`) returns true, issues no delete
call and asks for no interactive confirmation. -/
theorem remove_container_node_no_match (registry : List TailscaleNode)
    (now : Int) (confirm delete_ok : Bool) (ch : String) (vmid : Option Nat)
    (h : find_container_node registry ch vmid = none) :
    remove_container_node registry now
        { nodes_cache := none, cache_timestamp := none } confirm delete_ok
        ch vmid false =
      (true, { nodes_cache := some registry, cache_timestamp := some now },
        { confirm_asked := false, delete_calls := [] }) := by
  have h0 : list_nodes registry now
      { nodes_cache := none, cache_timestamp := none } true =
      (registry, { nodes_cache := some registry, cache_timestamp := some now },
        true) :=
    list_nodes_fetch registry now _ (Or.inl rfl)
  rw [remove_container_node,
    find_container_node_st_eq registry now _ registry _ true ch vmid h0, h]

/-- Witness for C4: `remove("ghost-host")` against a registry whose only
entry is `web1-ct101` succeeds with no delete call and no prompt. -/
theorem remove_container_node_no_match_witness :
    remove_container_node
      [{ id := "n1", name := "web1-ct101", hostname := "web1-ct101",
         addresses := [], os := "linux", user := "u", created := "",
         last_seen := "", online := true, key_expiry_disabled := false }] 5
      { nodes_cache := none, cache_timestamp := none } true true
      "ghost-host" none false =
      (true,
        { nodes_cache := some
            [{ id := "n1", name := "web1-ct101", hostname := "web1-ct101",
               addresses := [], os := "linux", user := "u", created := "",
               last_seen := "", online := true, key_expiry_disabled := false }],
          cache_timestamp := some 5 },
        { confirm_asked := false, delete_calls := [] }) := by
  exact remove_container_node_no_match _ 5 true true "ghost-host" none (by decide)

/-- C8: with a fresh cache whose listing contains a matching entry,
`remove_container_node` without `force` asks for confirmation (whatever the
answer would be), and when the confirmation is declined it returns false,
issues no delete call, and leaves the cache state exactly as it was. -/
theorem remove_container_node_declined (registry : List TailscaleNode)
    (now : Int) (st : ClientState) (cached : List TailscaleNode) (t : Int)
    (node : TailscaleNode) (delete_ok : Bool) (ch : String) (vmid : Option Nat)
    (hc : st.nodes_cache = some cached) (ht : st.cache_timestamp = some t)
    (hfresh : now - t < cache_ttl)
    (hfind : find_container_node cached ch vmid = some node) :
    (∀ confirm, (remove_container_node registry now st confirm delete_ok
        ch vmid false).2.2.confirm_asked = true) ∧
    remove_container_node registry now st false delete_ok ch vmid false =
      (false, st, { confirm_asked := true, delete_calls := [] }) := by
  have h0 := list_nodes_fresh registry now st cached t hc ht hfresh
  have hf := find_container_node_st_eq registry now st cached st false ch vmid h0
  constructor
  · intro confirm
    rw [remove_container_node, hf, hfind]
    cases confirm with
    | false => rfl
    | true =>
      simp only [Bool.not_eq_true]
      cases hd : delete_node delete_ok st with
      | mk success st2 => simp
  · rw [remove_container_node, hf, hfind]
    rfl

/-- Witness for C8: a fresh cache holding the entry `web`; declining the
prompt returns false with no delete call and an unchanged state. -/
theorem remove_container_node_declined_witness :
    remove_container_node []
      30
      { nodes_cache := some
          [{ id := "n2", name := "web", hostname := "web", addresses := [],
             os := "linux", user := "u", created := "", last_seen := "",
             online := true, key_expiry_disabled := false }],
        cache_timestamp := some 10 }
      false true "web" none false =
      (false,
        { nodes_cache := some
            [{ id := "n2", name := "web", hostname := "web", addresses := [],
               os := "linux", user := "u", created := "", last_seen := "",
               online := true, key_expiry_disabled := false }],
          cache_timestamp := some 10 },
        { confirm_asked := true, delete_calls := [] }) := by
  exact (remove_container_node_declined [] 30 _ _ 10
    { id := "n2", name := "web", hostname := "web", addresses := [],
      os := "linux", user := "u", created := "", last_seen := "",
      online := true, key_expiry_disabled := false }
    true "web" none rfl rfl (by decide) (by decide)).2

end Pxrun
